import Mathlib

set_option linter.unusedVariables false

/-!
# Verification of `calculate_reimbursement.py`

Shallow embedding of the travel-reimbursement calculator. Monetary values and
the two real-valued inputs are modelled as rationals `ℚ`; `trip_duration_days`
is an integer `ℤ` (the CLI parses it with `int`). Python's `round(x, 2)` is
modelled as rounding `x * 100` to the nearest integer and dividing by 100; the
exact tie-breaking behaviour of binary floats is an edge case (none of the
concrete values proved here sit on a tie). The random source used by the
optional noise step is modelled as an injected rational `r ∈ [0, 1)` standing
for `random.random()`.
-/

namespace Reimb

/-- The three location categories of `PER_DIEM_TABLE`. -/
inductive Location where
  | Low
  | Medium
  | High
deriving DecidableEq

/-- Dictionary key of each location in `PER_DIEM_TABLE`. -/
def Location.name : Location → String
  | .Low => "Low"
  | .Medium => "Medium"
  | .High => "High"

/-- Value of `PER_DIEM_TABLE[loc]["BaseRate"]`. -/
def baseRate : Location → ℚ
  | .Low => 15
  | .Medium => 50
  | .High => 65

/-- Value of `PER_DIEM_TABLE[loc]["MieRate"]`. -/
def mieRate : Location → ℚ
  | .Low => 5
  | .Medium => 15
  | .High => 20

/-- The module-level dict `PER_DIEM_TABLE`, as an association list
`key ↦ (BaseRate, MieRate)`, for modelling the fallible dict lookup. -/
def PER_DIEM_TABLE : List (String × ℚ × ℚ) :=
  [("Low", (15, 5)), ("Medium", (50, 15)), ("High", (65, 20))]

/-- Python's `round(x, 2)`: round `x` to two decimal places. -/
def round2 (x : ℚ) : ℚ := (round (x * 100) : ℚ) / 100

/-- Step 1: `efficiency = miles_traveled / trip_duration_days if
trip_duration_days > 0 else 0`. -/
def efficiency (days : ℤ) (miles : ℚ) : ℚ :=
  if 0 < days then miles / (days : ℚ) else 0

/-- Step 2: infer location based on effort. -/
def location (days : ℤ) (miles receipts : ℚ) : Location :=
  if efficiency days miles > 200 ∨ (miles > 800 ∧ receipts > 1000) then .High
  else if efficiency days miles < 50 ∨ (days > 7 ∧ efficiency days miles < 100) then .Low
  else .Medium

/-- Step 3 (first half): the per-diem amount before the duration factor,
as a function of the base rate `b` and M&IE rate `m`. -/
def perDiemBase (days : ℤ) (b m : ℚ) : ℚ :=
  if days ≥ 2 then (b + m) * ((days : ℚ) - 2) + (b + m * 0.75) * 2
  else (b + m) * (days : ℚ)

/-- Step 3 (second half): `duration_factor`. -/
def durationFactor (days : ℤ) (loc : Location) : ℚ :=
  if days = 5 then 1.15
  else if days > 7 then (if loc = Location.Low then 0.40 else 0.80)
  else 1.0

/-- Step 4 (first half): tiered `mileage_reimbursement` before the
efficiency factor. -/
def mileageBase (miles : ℚ) : ℚ :=
  if miles ≥ 50 then
    if miles ≤ 100 then miles * 0.70
    else if miles ≤ 500 then 100 * 0.70 + (miles - 100) * 0.60
    else 100 * 0.70 + 400 * 0.60 + (miles - 500) * 0.50
  else 0.0

/-- Step 4 (second half): `efficiency_factor`, including the dead
`e > 300 ∧ days > 1` branch exactly as in the source. -/
def efficiencyFactor (days : ℤ) (e : ℚ) : ℚ :=
  if e > 200 then 1.20
  else if e > 100 ∧ e ≤ 200 then 1.15
  else if e > 300 ∧ days > 1 then 0.90
  else 1.0

/-- Step 5: `receipt_adjustment`. -/
def receiptAdjustment (days : ℤ) (receipts perDiem e : ℚ) : ℚ :=
  if receipts < 50 then perDiem
  else if receipts ≤ 500 ∧ days ≤ 6 then min (perDiem * 0.8) receipts
  else perDiem + min (receipts - perDiem) (if e < 100 then 200 else 500) * 0.15

/-- Step 6: cyclical suppression factor for low-effort trips. -/
def cycleFactor (loc : Location) (e : ℚ) : ℚ :=
  if loc = Location.Low ∧ e < 100 then 0.85 else 1.0

/-- Steps 3-10 of `calculate_reimbursement`, given the already-computed
efficiency `e`, the rates `b`, `m` looked up from the table, and the injected
random value `r` standing for `random.random()`. -/
def finishCalc (days : ℤ) (miles receipts e b m : ℚ) (loc : Location)
    (addNoise : Bool) (r : ℚ) : ℚ :=
  let perDiem := perDiemBase days b m * durationFactor days loc
  let mileage := mileageBase miles * efficiencyFactor days e
  let receiptAdj := receiptAdjustment days receipts perDiem e
  let reimb := (perDiem + mileage + receiptAdj) * cycleFactor loc e
  let capped := if e < 50 then min reimb ((days : ℚ) * 100) else reimb
  let noised := if addNoise then capped * (0.95 + r * 0.10) else capped
  round2 noised

/-- The function `calculate_reimbursement(days, miles, receipts, use_system_date,
add_noise)`, with the random source injected as `r`. -/
def calculate (days : ℤ) (miles receipts : ℚ) (useSystemDate addNoise : Bool)
    (r : ℚ) : ℚ :=
  let loc := location days miles receipts
  finishCalc days miles receipts (efficiency days miles) (baseRate loc) (mieRate loc)
    loc addNoise r

/-- The deterministic amount after the Step-8 cap, before noise and rounding. -/
def preNoise (days : ℤ) (miles receipts : ℚ) : ℚ :=
  let loc := location days miles receipts
  let e := efficiency days miles
  let perDiem := perDiemBase days (baseRate loc) (mieRate loc) * durationFactor days loc
  let mileage := mileageBase miles * efficiencyFactor days e
  let receiptAdj := receiptAdjustment days receipts perDiem e
  let reimb := (perDiem + mileage + receiptAdj) * cycleFactor loc e
  if e < 50 then min reimb ((days : ℚ) * 100) else reimb

/-- Step 4 efficiency factor with the dead `e > 300 ∧ days > 1` elif removed,
used to state that the branch is unreachable. -/
def efficiencyFactorNoDead (e : ℚ) : ℚ :=
  if e > 200 then 1.20
  else if e > 100 ∧ e ≤ 200 then 1.15
  else 1.0

/-- Steps 3-10 with the dead efficiency-factor branch removed. -/
def finishCalcNoDead (days : ℤ) (miles receipts e b m : ℚ) (loc : Location)
    (addNoise : Bool) (r : ℚ) : ℚ :=
  let perDiem := perDiemBase days b m * durationFactor days loc
  let mileage := mileageBase miles * efficiencyFactorNoDead e
  let receiptAdj := receiptAdjustment days receipts perDiem e
  let reimb := (perDiem + mileage + receiptAdj) * cycleFactor loc e
  let capped := if e < 50 then min reimb ((days : ℚ) * 100) else reimb
  let noised := if addNoise then capped * (0.95 + r * 0.10) else capped
  round2 noised

/-- The whole calculation with the dead efficiency-factor branch removed. -/
def calculateNoDead (days : ℤ) (miles receipts : ℚ) (useSystemDate addNoise : Bool)
    (r : ℚ) : ℚ :=
  let loc := location days miles receipts
  finishCalcNoDead days miles receipts (efficiency days miles) (baseRate loc)
    (mieRate loc) loc addNoise r

/-- Python division, which raises `ZeroDivisionError` on a zero divisor. -/
def divE (a b : ℚ) : Except String ℚ :=
  if b = 0 then .error "ZeroDivisionError: division by zero" else .ok (a / b)

/-- Python dict lookup `PER_DIEM_TABLE[key]`, which raises `KeyError` on a
missing key. -/
def lookupRates (key : String) : Except String (ℚ × ℚ) :=
  match PER_DIEM_TABLE.lookup key with
  | some v => .ok v
  | none => .error "KeyError"

/-- The calculation with its two fallible operations (the division in Step 1
and the dict lookup after Step 2) made explicit in the `Except` monad. -/
def calculateE (days : ℤ) (miles receipts : ℚ) (useSystemDate addNoise : Bool)
    (r : ℚ) : Except String ℚ := do
  let e ← if 0 < days then divE miles (days : ℚ) else .ok 0
  let loc := location days miles receipts
  let rates ← lookupRates loc.name
  .ok (finishCalc days miles receipts e rates.1 rates.2 loc addNoise r)

/-- Observable outcome of one CLI invocation: the rational values printed to
standard output, the messages printed to standard error, and the exit status
(0 for a normal return from `main`). -/
structure CliOutcome where
  stdoutVals : List ℚ
  stderrMsgs : List String
  exitCode : ℕ
deriving DecidableEq

/-- The usage message printed by `main` on a wrong argument count. -/
def usageMessage : String :=
  "Usage: python3 calculate_reimbursement.py <trip_duration_days> <miles_traveled> <total_receipts_amount>"

/-- The error message prefix printed by `main` when an argument fails to parse. -/
def invalidInputMessage : String :=
  "Error: Invalid input format"

/-- The `main` entry point. `argv` is `sys.argv` (program name included), and
the `int`/`float` string parsers are injected as `Option`-valued functions. -/
def mainModel (argv : List String) (parseI : String → Option ℤ)
    (parseF : String → Option ℚ) : CliOutcome :=
  if argv.length = 4 then
    match parseI (argv.getD 1 ""), parseF (argv.getD 2 ""), parseF (argv.getD 3 "") with
    | some days, some miles, some receipts =>
        { stdoutVals := [calculate days miles receipts false false 0]
          stderrMsgs := []
          exitCode := 0 }
    | _, _, _ =>
        { stdoutVals := [], stderrMsgs := [invalidInputMessage], exitCode := 1 }
  else
    { stdoutVals := [], stderrMsgs := [usageMessage], exitCode := 1 }

/-! ## Helper lemmas -/

/-- Evaluate `round2` on a concrete rational via the floor characterisation. -/
lemma round2_eq (x : ℚ) (n : ℤ) (h1 : (n : ℚ) ≤ x * 100 + 1/2)
    (h2 : x * 100 + 1/2 < (n : ℚ) + 1) : round2 x = (n : ℚ) / 100 := by
  unfold round2
  rw [round_eq, Int.floor_eq_iff.mpr ⟨h1, h2⟩]

/-- With `add_noise = False` the result is the rounded capped amount, and the
random source and the `use_system_date` flag are irrelevant. -/
lemma calculate_noNoise (days : ℤ) (miles receipts : ℚ) (u : Bool) (r : ℚ) :
    calculate days miles receipts u false r = round2 (preNoise days miles receipts) := rfl

/-- With `add_noise = True` the result is the rounded noised capped amount. -/
lemma calculate_noise (days : ℤ) (miles receipts : ℚ) (u : Bool) (r : ℚ) :
    calculate days miles receipts u true r
      = round2 (preNoise days miles receipts * (0.95 + r * 0.10)) := rfl

lemma round_mono {x y : ℚ} (h : x ≤ y) : round x ≤ round y := by
  rw [round_eq, round_eq]
  exact Int.floor_le_floor (by linarith)

lemma round2_nonneg {x : ℚ} (h : 0 ≤ x) : 0 ≤ round2 x := by
  unfold round2
  have h1 : round (0 : ℚ) ≤ round (x * 100) := round_mono (by linarith)
  rw [round_zero] at h1
  have h2 : (0 : ℚ) ≤ (round (x * 100) : ℚ) := by exact_mod_cast h1
  linarith

lemma round2_le_int {x : ℚ} {n : ℤ} (h : x ≤ (n : ℚ)) : round2 x ≤ (n : ℚ) := by
  unfold round2
  have h1 : round (x * 100) ≤ round ((n : ℚ) * 100) := round_mono (by linarith)
  have h2 : round ((n : ℚ) * 100) = n * 100 := by
    rw [show ((n : ℚ) * 100) = ((n * 100 : ℤ) : ℚ) by push_cast; ring, round_intCast]
  rw [h2] at h1
  have h3 : ((round (x * 100) : ℤ) : ℚ) ≤ ((n * 100 : ℤ) : ℚ) := by exact_mod_cast h1
  push_cast at h3
  linarith

lemma exists_int_round2 (x : ℚ) : ∃ n : ℤ, round2 x * 100 = (n : ℚ) := by
  refine ⟨round (x * 100), ?_⟩
  unfold round2
  rw [div_mul_cancel₀]
  norm_num

lemma baseRate_nonneg (loc : Location) : 0 ≤ baseRate loc := by
  cases loc <;> norm_num [baseRate]

lemma mieRate_nonneg (loc : Location) : 0 ≤ mieRate loc := by
  cases loc <;> norm_num [mieRate]

lemma perDiemBase_nonneg {days : ℤ} {b m : ℚ} (hd : 1 ≤ days) (hb : 0 ≤ b)
    (hm : 0 ≤ m) : 0 ≤ perDiemBase days b m := by
  unfold perDiemBase
  split_ifs with h
  · have h2 : (2 : ℚ) ≤ (days : ℚ) := by exact_mod_cast h
    nlinarith
  · have h1 : (1 : ℚ) ≤ (days : ℚ) := by exact_mod_cast hd
    nlinarith

lemma durationFactor_pos (days : ℤ) (loc : Location) : 0 < durationFactor days loc := by
  unfold durationFactor
  split_ifs <;> norm_num

lemma mileageBase_nonneg (miles : ℚ) : 0 ≤ mileageBase miles := by
  unfold mileageBase
  split_ifs <;> nlinarith

lemma efficiencyFactor_pos (days : ℤ) (e : ℚ) : 0 < efficiencyFactor days e := by
  unfold efficiencyFactor
  split_ifs <;> norm_num

lemma receiptAdjustment_nonneg {days : ℤ} {receipts pd e : ℚ} (hpd : 0 ≤ pd)
    (hr : 0 ≤ receipts) : 0 ≤ receiptAdjustment days receipts pd e := by
  unfold receiptAdjustment
  split_ifs with h1 h2 h3
  · exact hpd
  · exact le_min (by linarith) hr
  · rcases le_total (receipts - pd) 200 with hc | hc
    · rw [min_eq_left hc]; linarith
    · rw [min_eq_right hc]; linarith
  · rcases le_total (receipts - pd) 500 with hc | hc
    · rw [min_eq_left hc]; linarith
    · rw [min_eq_right hc]; linarith

lemma cycleFactor_pos (loc : Location) (e : ℚ) : 0 < cycleFactor loc e := by
  unfold cycleFactor
  split_ifs <;> norm_num

lemma preNoise_nonneg {days : ℤ} {miles receipts : ℚ} (hd : 1 ≤ days)
    (hm : 0 ≤ miles) (hr : 0 ≤ receipts) : 0 ≤ preNoise days miles receipts := by
  unfold preNoise
  dsimp only
  have hdq : (1 : ℚ) ≤ (days : ℚ) := by exact_mod_cast hd
  have hpd : 0 ≤ perDiemBase days (baseRate (location days miles receipts))
      (mieRate (location days miles receipts)) * durationFactor days (location days miles receipts) :=
    mul_nonneg
      (perDiemBase_nonneg hd (baseRate_nonneg _) (mieRate_nonneg _))
      (durationFactor_pos _ _).le
  have hmil : 0 ≤ mileageBase miles * efficiencyFactor days (efficiency days miles) :=
    mul_nonneg (mileageBase_nonneg _) (efficiencyFactor_pos _ _).le
  have hadj : 0 ≤ receiptAdjustment days receipts
      (perDiemBase days (baseRate (location days miles receipts))
        (mieRate (location days miles receipts)) * durationFactor days (location days miles receipts))
      (efficiency days miles) := receiptAdjustment_nonneg hpd hr
  have hsum : 0 ≤ (perDiemBase days (baseRate (location days miles receipts))
        (mieRate (location days miles receipts)) * durationFactor days (location days miles receipts)
      + mileageBase miles * efficiencyFactor days (efficiency days miles)
      + receiptAdjustment days receipts
          (perDiemBase days (baseRate (location days miles receipts))
            (mieRate (location days miles receipts)) * durationFactor days (location days miles receipts))
          (efficiency days miles)) * cycleFactor (location days miles receipts) (efficiency days miles) :=
    mul_nonneg (by linarith) (cycleFactor_pos _ _).le
  split_ifs with h
  · exact le_min hsum (by nlinarith)
  · exact hsum

lemma efficiencyFactor_eq_noDead (days : ℤ) (e : ℚ) :
    efficiencyFactor days e = efficiencyFactorNoDead e := by
  unfold efficiencyFactor efficiencyFactorNoDead
  split_ifs with h1 h2 h3 <;> first
    | rfl
    | (exact absurd (by linarith [h3.1] : e > 200) h1)

lemma lookupRates_name (loc : Location) :
    lookupRates loc.name = Except.ok (baseRate loc, mieRate loc) := by
  cases loc <;> rfl

/-! ## Claims -/

/-- C1 (counterexample): on input `days=5, miles=500, receipts=600` with
`add_noise=False` the code does **not** return 1078.14 — it returns 1075.48.
The spec's worked example miscomputes the Medium per-diem base: it uses
`(50 + 15*0.75)*2 = 123.75`, but `15 * 0.75 = 11.25`, so the correct value is
`(50 + 11.25)*2 = 122.5`, giving `per_diem = 317.5 * 1.15 = 365.125`, a
receipt adjustment of `400.35625`, and a total of `1075.48125`. -/
theorem C1_counterexample : calculate 5 500 600 false false 0 ≠ 1078.14 := by
  rw [calculate_noNoise]
  have hpre : preNoise 5 500 600 = 172077/160 := by
    norm_num [preNoise, location, efficiency, perDiemBase, durationFactor, mileageBase,
      efficiencyFactor, receiptAdjustment, cycleFactor, baseRate, mieRate, min_def]
  rw [hpre, round2_eq (172077/160) 107548 (by norm_num) (by norm_num)]
  norm_num

/-- C1 (amended): for the input `days=5, miles=500, receipts=600` with
`add_noise=False`, the code classifies the location as Medium (the efficiency
is exactly 100, so neither the High nor the Low condition holds, and the
mileage efficiency factor stays 1.0 because 100 is not `> 100`), and it
returns exactly 1075.48 (not the 1078.14 of the spec's worked example, whose
per-diem arithmetic is off by 2.5 before the 5-day multiplier). -/
theorem C1_amended_value :
    location 5 500 600 = Location.Medium ∧
    efficiency 5 500 = 100 ∧
    efficiencyFactor 5 (efficiency 5 500) = 1 ∧
    calculate 5 500 600 false false 0 = 1075.48 := by
  refine ⟨by norm_num [location, efficiency], by norm_num [efficiency],
    by norm_num [efficiencyFactor, efficiency], ?_⟩
  rw [calculate_noNoise]
  have hpre : preNoise 5 500 600 = 172077/160 := by
    norm_num [preNoise, location, efficiency, perDiemBase, durationFactor, mileageBase,
      efficiencyFactor, receiptAdjustment, cycleFactor, baseRate, mieRate, min_def]
  rw [hpre, round2_eq (172077/160) 107548 (by norm_num) (by norm_num)]
  norm_num

/-- C2: the efficiency-factor branch `efficiency > 300 and days > 1 → ×0.90`
is unreachable: the applied efficiency factor is never 0.90 for any input, and
the whole calculation with that elif removed agrees with the original on every
input (all days, miles, receipts, flag values, and random draws). -/
theorem C2_dead_branch_unreachable :
    (∀ (days : ℤ) (e : ℚ), efficiencyFactor days e ≠ 0.90) ∧
    (∀ (days : ℤ) (miles receipts : ℚ) (u a : Bool) (r : ℚ),
      calculateNoDead days miles receipts u a r = calculate days miles receipts u a r) := by
  constructor
  · intro days e
    unfold efficiencyFactor
    split_ifs with h1 h2 h3
    · norm_num
    · norm_num
    · exact absurd (by linarith [h3.1] : e > 200) h1
    · norm_num
  · intro days miles receipts u a r
    simp only [calculateNoDead, calculate, finishCalcNoDead, finishCalc,
      efficiencyFactor_eq_noDead]

/-- C3: low-effort cap. For every integer `days ≥ 1`, rational `miles ≥ 0`,
`receipts ≥ 0`, with `add_noise=False`, if `efficiency = miles/days < 50` then
the returned reimbursement is at most `days * 100`. -/
theorem C3_low_effort_cap (days : ℤ) (miles receipts : ℚ) (u : Bool) (r : ℚ)
    (hd : 1 ≤ days) (hm : 0 ≤ miles) (hr : 0 ≤ receipts)
    (he : efficiency days miles < 50) :
    calculate days miles receipts u false r ≤ (days : ℚ) * 100 := by
  rw [calculate_noNoise]
  have hle : preNoise days miles receipts ≤ ((days * 100 : ℤ) : ℚ) := by
    unfold preNoise
    dsimp only
    rw [if_pos he]
    push_cast
    exact min_le_right _ _
  have := round2_le_int hle
  push_cast at this
  linarith

/-- Witness for C3 at `days=1, miles=10, receipts=0` (efficiency 10 < 50). -/
theorem C3_low_effort_cap_witness :
    calculate 1 10 0 false false 0 ≤ ((1 : ℤ) : ℚ) * 100 :=
  C3_low_effort_cap 1 10 0 false 0 (by norm_num) (by norm_num) (by norm_num)
    (by norm_num [efficiency])

/-- C4: with `add_noise=False`, `calculate` is a pure deterministic function of
`(days, miles, receipts)`: the result is independent of the `use_system_date`
flag and of the injected random value, so two calls with identical numeric
inputs return identical outputs. -/
theorem C4_deterministic (days : ℤ) (miles receipts : ℚ) (u₁ u₂ : Bool)
    (r₁ r₂ : ℚ) :
    calculate days miles receipts u₁ false r₁ = calculate days miles receipts u₂ false r₂ := rfl

/-- C5: for every input (any days, miles, receipts, flag values and random
draw) the returned value has at most 2 decimal places: `output * 100` is an
integer, because rounding to 2 decimals is the last step before returning. -/
theorem C5_two_decimals (days : ℤ) (miles receipts : ℚ) (u a : Bool) (r : ℚ) :
    ∃ n : ℤ, calculate days miles receipts u a r * 100 = (n : ℚ) := by
  cases a
  · rw [calculate_noNoise]
    exact exists_int_round2 _
  · rw [calculate_noise]
    exact exists_int_round2 _

/-- C6: the receipt-adjustment rule. If `receipts < 50` the adjustment is the
per diem; else if `receipts ≤ 500` and `days ≤ 6` it is
`min(perDiem * 0.8, receipts)`; otherwise it is
`perDiem + 0.15 * min(receipts - perDiem, 200 if efficiency < 100 else 500)`,
and in that last branch a negative excess (`receipts < perDiem`) pulls the
adjustment strictly below the per diem. -/
theorem C6_receipt_adjustment (days : ℤ) (receipts pd e : ℚ) :
    (receipts < 50 → receiptAdjustment days receipts pd e = pd) ∧
    (¬ receipts < 50 → receipts ≤ 500 ∧ days ≤ 6 →
      receiptAdjustment days receipts pd e = min (pd * 0.8) receipts) ∧
    (¬ receipts < 50 → ¬ (receipts ≤ 500 ∧ days ≤ 6) →
      receiptAdjustment days receipts pd e
        = pd + 0.15 * min (receipts - pd) (if e < 100 then 200 else 500)) ∧
    (¬ receipts < 50 → ¬ (receipts ≤ 500 ∧ days ≤ 6) → receipts < pd →
      receiptAdjustment days receipts pd e < pd) := by
  unfold receiptAdjustment
  refine ⟨fun h1 => if_pos h1, fun h1 h2 => ?_, fun h1 h2 => ?_, fun h1 h2 h3 => ?_⟩
  · rw [if_neg h1, if_pos h2]
  · rw [if_neg h1, if_neg h2]
    ring
  · rw [if_neg h1, if_neg h2]
    have hmin : min (receipts - pd) (if e < 100 then (200 : ℚ) else 500)
        ≤ receipts - pd := min_le_left _ _
    linarith

/-- Witness for C6: the first branch at `(days, receipts, pd, e) = (3, 40, 100, 10)`
and the negative-excess part of the last branch at `(8, 600, 1000, 50)`. -/
theorem C6_receipt_adjustment_witness :
    receiptAdjustment 3 40 100 10 = 100 ∧ receiptAdjustment 8 600 1000 50 < 1000 := by
  constructor
  · exact (C6_receipt_adjustment 3 40 100 10).1 (by norm_num)
  · exact (C6_receipt_adjustment 8 600 1000 50).2.2.2 (by norm_num) (by norm_num)
      (by norm_num)

/-- C7: totality. With the two fallible operations of the source made explicit
(the division in Step 1, guarded by `days > 0`, and the `PER_DIEM_TABLE` dict
lookup, whose key is always one of the three table keys), the calculation
never raises: for every input it returns `Except.ok` of the pure result. -/
theorem C7_total_no_failure (days : ℤ) (miles receipts : ℚ) (u a : Bool) (r : ℚ) :
    calculateE days miles receipts u a r = Except.ok (calculate days miles receipts u a r) := by
  unfold calculateE calculate
  by_cases hd : 0 < days
  · have hne : ((days : ℚ)) ≠ 0 := by
      have : (0 : ℚ) < (days : ℚ) := by exact_mod_cast hd
      linarith
    simp [hd, divE, hne, lookupRates_name, efficiency, Except.bind, bind]
  · simp [hd, lookupRates_name, efficiency, Except.bind, bind]

/-- C8: CLI argument-count error. Whenever `sys.argv` does not consist of the
program name plus exactly 3 positional arguments, `main` prints the usage
message to standard error, exits with status 1, and writes nothing to standard
output — independently of how the numeric parsers would behave. -/
theorem C8_usage_error (argv : List String) (parseI : String → Option ℤ)
    (parseF : String → Option ℚ) (h : argv.length ≠ 4) :
    mainModel argv parseI parseF = ⟨[], [usageMessage], 1⟩ := by
  unfold mainModel
  rw [if_neg h]

/-- Witness for C8: an invocation with only 2 positional arguments. -/
theorem C8_usage_error_witness :
    mainModel ["calculate_reimbursement.py", "5", "500"] (fun _ => none) (fun _ => none)
      = ⟨[], [usageMessage], 1⟩ :=
  C8_usage_error _ _ _ (by norm_num)

/-- C9: the optional noise is applied after the low-effort cap. With the
random source modelled as an injected `r ∈ [0, 1)`, a call with
`add_noise=True` returns the rounding of the capped deterministic amount times
`0.95 + 0.10 * r`, a factor in `[0.95, 1.05)`; consequently there is an input
with efficiency below 50 and a draw `r` for which the returned value exceeds
`days * 100` (at `days=17, miles=840, receipts=2000, r=9/10` the capped amount
is 1700 and the call returns 1768 > 1700). -/
theorem C9_noise_after_cap :
    (∀ (days : ℤ) (miles receipts : ℚ) (u : Bool) (r : ℚ), 0 ≤ r → r < 1 →
      calculate days miles receipts u true r
          = round2 (preNoise days miles receipts * (0.95 + 0.10 * r))
        ∧ 0.95 ≤ 0.95 + 0.10 * r ∧ 0.95 + 0.10 * r < 1.05) ∧
    (efficiency 17 840 < 50 ∧
      ((17 : ℤ) : ℚ) * 100 < calculate 17 840 2000 false true (9/10)) := by
  constructor
  · intro days miles receipts u r h0 h1
    refine ⟨?_, by linarith, by linarith⟩
    rw [calculate_noise]
    exact congrArg round2 (by ring)
  · constructor
    · norm_num [efficiency]
    · have hne : Location.High ≠ Location.Low := by decide
      have hpre : preNoise 17 840 2000 = 1700 := by
        norm_num [preNoise, location, efficiency, perDiemBase, durationFactor,
          mileageBase, efficiencyFactor, receiptAdjustment, cycleFactor, baseRate,
          mieRate, min_def, hne]
      rw [calculate_noise, hpre, round2_eq _ 176800 (by norm_num) (by norm_num)]
      norm_num

/-- Witness for C9 at `days=1, miles=10, receipts=0, r=1/2`. -/
theorem C9_noise_after_cap_witness :
    calculate 1 10 0 false true (1/2)
      = round2 (preNoise 1 10 0 * (0.95 + 0.10 * (1/2))) :=
  (C9_noise_after_cap.1 1 10 0 false (1/2) (by norm_num) (by norm_num)).1

/-- C10: non-negativity on the documented domain. For every integer
`days ≥ 1`, rational `miles ≥ 0`, `receipts ≥ 0`, with `add_noise=False`, the
returned value is non-negative (every component — per diem, mileage
reimbursement, receipt adjustment, cycle factor, and the `days*100` cap — is
non-negative under these preconditions, and rounding preserves the sign). -/
theorem C10_nonneg (days : ℤ) (miles receipts : ℚ) (u : Bool) (r : ℚ)
    (hd : 1 ≤ days) (hm : 0 ≤ miles) (hr : 0 ≤ receipts) :
    0 ≤ calculate days miles receipts u false r := by
  rw [calculate_noNoise]
  exact round2_nonneg (preNoise_nonneg hd hm hr)

/-- Witness for C10 at `days=1, miles=10, receipts=0`. -/
theorem C10_nonneg_witness : 0 ≤ calculate 1 10 0 false false 0 :=
  C10_nonneg 1 10 0 false 0 (by norm_num) (by norm_num) (by norm_num)

end Reimb
